import Mathlib

/-!
Shallow embedding of `src/mongo_server.js` (Products-Backend): an Express
server with seller signup/login (bcrypt-hashed passwords, JWT bearer tokens)
and a product CRUD surface gated by an authentication middleware.

Modelling conventions:
* The MongoDB collections become lists of records inside a `DB` state;
  every route is a pure function `… → Response × DB`.
* `bcrypt` and `jsonwebtoken` are external collaborators; they are modelled
  executably: a bcrypt hash is a tagged string `$2b$10$<salt>$<digest>` and a
  JWT is a payload (id, username, iat, exp) plus a signature derived from the
  payload and the signing secret.  The wire form of a token is a string.
* JavaScript truthiness of a request-body field (`!username`) is modelled by
  `jsFalsy` on `Option String`: a missing field (`none`) and the empty string
  are both falsy.
* `String.prototype.split(' ')` (single-character separator, non-collapsing,
  keeping leading/trailing empty chunks) is modelled by `jsSplit`.
* `res.sendStatus(n)` sends no JSON payload; its body is modelled as
  `ResBody.empty`.
* Fresh MongoDB `_id` values are supplied as explicit `genId` arguments.
-/

/-- A seller document (`sellerSchema`: username unique+required, password
required).  `password` stores whatever string the signup handler writes. -/
structure Seller where
  _id : String
  username : String
  password : String
deriving DecidableEq, Repr

/-- A product document (`productSchema`: name and description required). -/
structure Product where
  _id : String
  name : String
  description : String
deriving DecidableEq, Repr

/-- The persistent state: the `sellers` and `products` collections. -/
structure DB where
  sellers : List Seller
  products : List Product
deriving DecidableEq, Repr

/-- JavaScript truthiness test for a request-body string field:
`!x` is true when the field is absent (undefined) or the empty string. -/
def jsFalsy : Option String → Bool
  | none => true
  | some s => s == ""

/-- Model of JavaScript `String.prototype.split(c)` for a one-character
separator, at the level of character lists: non-collapsing, and keeping
leading and trailing empty chunks (`"".split(' ') = [""]`). -/
def splitOnChar (c : Char) : List Char → List (List Char)
  | [] => [[]]
  | x :: xs =>
    let r := splitOnChar c xs
    if x = c then
      [] :: r
    else
      match r with
      | [] => [[x]]
      | y :: ys => (x :: y) :: ys

/-- `jsSplit c s` models `s.split(c)` in JavaScript. -/
def jsSplit (c : Char) (s : String) : List String :=
  (splitOnChar c s.data).map String.mk

/-- A 32-bit rolling hash of a string; stands in for the cryptographic
digests used by bcrypt and the JWT HMAC. -/
def strHash (s : String) : Nat :=
  s.data.foldl (fun a c => (a * 131 + c.toNat) % 2 ^ 32) 7

/-- Read a decimal numeral (used to parse the numeric fields of a wire-form
token). -/
def decNatAux : List Char → Nat → Option Nat
  | [], acc => some acc
  | c :: cs, acc =>
    if 48 ≤ c.toNat ∧ c.toNat ≤ 57 then decNatAux cs (acc * 10 + (c.toNat - 48))
    else none

/-- Parse a string as a decimal natural number; `none` on the empty string
or any non-digit character. -/
def decNat (s : String) : Option Nat :=
  match s.data with
  | [] => none
  | l => decNatAux l 0

/-- Model of `bcrypt.hash(password, 10)`: a one-way, salted hash with cost
factor 10, rendered in the usual `$2b$10$<salt>$<digest>` shape.  The random
salt is an explicit argument. -/
def bcryptHash (salt : Nat) (password : String) : String :=
  "$2b$10$" ++ toString salt ++ "$" ++ toString (strHash (toString salt ++ "$" ++ password))

/-- Model of `bcrypt.compare(password, hash)`: extract the salt from the
stored hash, re-hash the candidate password with it, and compare digests. -/
def bcryptCompare (password hash : String) : Bool :=
  match jsSplit '$' hash with
  | ["", "2b", "10", s, d] => d == toString (strHash (s ++ "$" ++ password))
  | _ => false

/-- The claims a JWT issued by this server carries: seller id and username
(the payload given to `jwt.sign`) plus issued-at and expiry timestamps
(added by the library from `expiresIn`). -/
structure JwtPayload where
  id : String
  username : String
  iat : Nat
  exp : Nat
deriving DecidableEq, Repr

/-- A signed token: payload plus a signature over payload and secret. -/
structure SignedToken where
  payload : JwtPayload
  sig : Nat
deriving DecidableEq, Repr

/-- The signature the model attaches to a payload for a given secret. -/
def signatureOf (p : JwtPayload) (secret : String) : Nat :=
  strHash (p.id ++ "." ++ p.username ++ "." ++ toString p.iat ++ "." ++ toString p.exp ++ "." ++ secret)

/-- Model of `jwt.sign({id, username}, secret, {expiresIn: '1h'})` at time
`now` (seconds): `iat = now`, `exp = now + 3600`. -/
def jwtSign (id username secret : String) (now : Nat) : SignedToken :=
  let p : JwtPayload := { id := id, username := username, iat := now, exp := now + 3600 }
  { payload := p, sig := signatureOf p secret }

/-- Structure-level model of `jwt.verify`: the token is accepted iff its
signature matches the one recomputed from the secret and it has not expired. -/
def jwtVerifyTok (secret : String) (now : Nat) (t : SignedToken) : Except Unit JwtPayload :=
  if t.sig ≠ signatureOf t.payload secret then .error ()
  else if t.payload.exp ≤ now then .error ()
  else .ok t.payload

/-- Wire form of a token (the string the client echoes back in the
Authorization header). -/
def tokenToString (t : SignedToken) : String :=
  t.payload.id ++ "." ++ t.payload.username ++ "." ++ toString t.payload.iat
    ++ "." ++ toString t.payload.exp ++ "." ++ toString t.sig

/-- Parse a wire-form token back into its parts. -/
def tokenDecode (s : String) : Option SignedToken :=
  match jsSplit '.' s with
  | [i, u, a, e, g] =>
    match decNat a, decNat e, decNat g with
    | some ia, some ex, some sg =>
      some { payload := { id := i, username := u, iat := ia, exp := ex }, sig := sg }
    | _, _, _ => none
  | _ => none

/-- Model of `jwt.verify(token, secret, cb)` on a wire-form token string. -/
def jwtVerifyStr (secret : String) (now : Nat) (s : String) : Except Unit JwtPayload :=
  match tokenDecode s with
  | none => .error ()
  | some t => jwtVerifyTok secret now t

/-- A JSON response body, by shape.  `empty` is the absence of a JSON
payload (`res.sendStatus`). -/
inductive ResBody where
  | empty
  | msg (message : String)
  | err (error : String)
  | msgProduct (message : String) (product : Product)
  | token (t : SignedToken)
  | products (l : List Product)
deriving DecidableEq, Repr

/-- An HTTP response: status code and JSON body. -/
structure Response where
  status : Nat
  body : ResBody
deriving DecidableEq, Repr

/-- Outcome of the authentication middleware: reject with a status, or
proceed into the handler with `req.user` set to the decoded payload. -/
inductive AuthOutcome where
  | reject (status : Nat)
  | proceed (user : JwtPayload)
deriving DecidableEq, Repr

/-- `const token = authHeader && authHeader.split(' ')[1]` followed by the
`!token` truthiness test: the extracted token, or `none` when the header is
absent, has no second space-separated part, or that part is empty. -/
def headerToken (authHeader : Option String) : Option String :=
  match authHeader with
  | none => none
  | some h =>
    match (jsSplit ' ' h).get? 1 with
    | none => none
    | some t => if t == "" then none else some t

/-- The `authenticateToken` middleware (src/mongo_server.js:14-24): 401 when
no token could be extracted, 403 when verification fails, otherwise proceed
with the decoded user. -/
def authenticateToken (secret : String) (now : Nat) (authHeader : Option String) : AuthOutcome :=
  match headerToken authHeader with
  | none => .reject 401
  | some tok =>
    match jwtVerifyStr secret now tok with
    | .error _ => .reject 403
    | .ok user => .proceed user

/-- Wrap a handler body behind `authenticateToken`: on rejection the handler
never runs and the store is untouched; `res.sendStatus` carries no JSON body. -/
def protect (secret : String) (now : Nat) (authHeader : Option String)
    (handler : JwtPayload → DB → Response × DB) (db : DB) : Response × DB :=
  match authenticateToken secret now authHeader with
  | .reject s => ({ status := s, body := .empty }, db)
  | .proceed u => handler u db

/-- POST /api/sellers/signup (src/mongo_server.js:48-63).  Missing fields →
400; duplicate username → the unique index makes `save()` throw → 500;
otherwise store the bcrypt hash of the password and answer 201. -/
def signupHandler (db : DB) (salt : Nat) (genId : String)
    (username password : Option String) : Response × DB :=
  if jsFalsy username || jsFalsy password then
    ({ status := 400, body := .err "Username and password are required" }, db)
  else
    let u := username.getD ""
    let p := password.getD ""
    if db.sellers.any (fun s => s.username == u) then
      ({ status := 500, body := .err "Failed to register seller" }, db)
    else
      ({ status := 201, body := .msg "Seller registered successfully" },
       { db with sellers := db.sellers ++ [{ _id := genId, username := u, password := bcryptHash salt p }] })

/-- POST /api/sellers/login (src/mongo_server.js:66-89).  Missing fields →
400; unknown username or wrong password → 401 with the same body; on a match,
sign and return a 1-hour token.  The handler never writes the store. -/
def loginHandler (db : DB) (secret : String) (now : Nat)
    (username password : Option String) : Response × DB :=
  if jsFalsy username || jsFalsy password then
    ({ status := 400, body := .err "Username and password are required" }, db)
  else
    match db.sellers.find? (fun s => s.username == username.getD "") with
    | none => ({ status := 401, body := .err "Invalid credentials" }, db)
    | some seller =>
      if bcryptCompare (password.getD "") seller.password then
        ({ status := 200, body := .token (jwtSign seller._id seller.username secret now) }, db)
      else
        ({ status := 401, body := .err "Invalid credentials" }, db)

/-- GET /api/products (src/mongo_server.js:92-100): public, returns every
product. -/
def getProducts (db : DB) : Response × DB :=
  ({ status := 200, body := .products db.products }, db)

/-- Body of POST /api/products (src/mongo_server.js:103-117), after the
middleware: missing fields → 400, otherwise append the new product and
answer 201 with it. -/
def addProductHandler (db : DB) (genId : String)
    (name description : Option String) : Response × DB :=
  if jsFalsy name || jsFalsy description then
    ({ status := 400, body := .err "Product name and description are required" }, db)
  else
    let p : Product := { _id := genId, name := name.getD "", description := description.getD "" }
    ({ status := 201, body := .msgProduct "Product added successfully" p },
     { db with products := db.products ++ [p] })

/-- Body of PUT /api/products/:id (src/mongo_server.js:120-138): missing
fields → 400; unknown id → 404; otherwise `findByIdAndUpdate` overwrites
name and description and (with `new: true`) the updated record is returned. -/
def updateProductHandler (db : DB) (id : String)
    (name description : Option String) : Response × DB :=
  if jsFalsy name || jsFalsy description then
    ({ status := 400, body := .err "Product name and description are required" }, db)
  else
    match db.products.find? (fun p => p._id == id) with
    | none => ({ status := 404, body := .err "Product not found" }, db)
    | some p =>
      let updated : Product := { p with name := name.getD "", description := description.getD "" }
      ({ status := 200, body := .msgProduct "Product updated successfully" updated },
       { db with products := db.products.map (fun q => if q._id == id then { q with name := name.getD "", description := description.getD "" } else q) })

/-- Body of DELETE /api/products/:id (src/mongo_server.js:141-154): unknown
id → 404; otherwise `findByIdAndDelete` removes the document and a plain
confirmation message is returned. -/
def deleteProductHandler (db : DB) (id : String) : Response × DB :=
  match db.products.find? (fun p => p._id == id) with
  | none => ({ status := 404, body := .err "Product not found" }, db)
  | some _ =>
    ({ status := 200, body := .msg "Product deleted successfully" },
     { db with products := db.products.eraseP (fun p => p._id == id) })

/-- The full POST /api/products route: middleware, then handler. -/
def postProducts (db : DB) (secret : String) (now : Nat) (genId : String)
    (authHeader : Option String) (name description : Option String) : Response × DB :=
  protect secret now authHeader (fun _ db => addProductHandler db genId name description) db

/-- The full PUT /api/products/:id route: middleware, then handler. -/
def putProducts (db : DB) (secret : String) (now : Nat) (id : String)
    (authHeader : Option String) (name description : Option String) : Response × DB :=
  protect secret now authHeader (fun _ db => updateProductHandler db id name description) db

/-- The full DELETE /api/products/:id route: middleware, then handler. -/
def deleteProducts (db : DB) (secret : String) (now : Nat) (id : String)
    (authHeader : Option String) : Response × DB :=
  protect secret now authHeader (fun _ db => deleteProductHandler db id) db

/-! ### Helper lemmas about the JavaScript-style split and header parsing -/

/-- Splitting a list that does not contain the separator yields the list
itself as the only chunk. -/
theorem splitOnChar_not_mem (c : Char) (l : List Char) (h : c ∉ l) :
    splitOnChar c l = [l] := by
  induction l with
  | nil => rfl
  | cons x xs ih =>
    simp only [List.mem_cons, not_or] at h
    simp [splitOnChar, ih h.2, Ne.symm h.1]

/-- Splitting at the first separator occurrence peels off the prefix. -/
theorem splitOnChar_append_sep (c : Char) (l1 l2 : List Char) (h : c ∉ l1) :
    splitOnChar c (l1 ++ c :: l2) = l1 :: splitOnChar c l2 := by
  induction l1 with
  | nil => simp [splitOnChar]
  | cons x xs ih =>
    simp only [List.mem_cons, not_or] at h
    simp [splitOnChar, ih h.2, Ne.symm h.1]

/-- `(scheme ++ " " ++ tok).split(' ')` is `[scheme, tok]` when neither part
contains a space. -/
theorem jsSplit_scheme_tok (s t : String) (hs : ' ' ∉ s.data) (ht : ' ' ∉ t.data) :
    jsSplit ' ' (s ++ " " ++ t) = [s, t] := by
  have hdata : (s ++ " " ++ t).data = s.data ++ ' ' :: t.data := by
    simp [String.data_append]
  rw [jsSplit, hdata, splitOnChar_append_sep _ _ _ hs, splitOnChar_not_mem _ _ ht]
  rfl

/-- The middleware extracts the second space-separated chunk whatever the
scheme word is. -/
theorem headerToken_scheme_tok (s t : String) (hs : ' ' ∉ s.data) (ht : ' ' ∉ t.data)
    (hne : t ≠ "") : headerToken (some (s ++ " " ++ t)) = some t := by
  simp [headerToken, jsSplit_scheme_tok s t hs ht, List.get?]
  intro h
  exact absurd h hne

/-- A header without a space yields no token. -/
theorem headerToken_no_space (h : String) (hs : ' ' ∉ h.data) :
    headerToken (some h) = none := by
  simp [headerToken, jsSplit, splitOnChar_not_mem ' ' h.data hs, List.get?]

/-- A header whose second space-separated chunk is empty yields no token. -/
theorem headerToken_empty_tok (s : String) (hs : ' ' ∉ s.data) :
    headerToken (some (s ++ " ")) = none := by
  have hdata : (s ++ " ").data = s.data ++ ' ' :: [] := by
    simp [String.data_append]
  simp [headerToken, jsSplit, hdata, splitOnChar_append_sep _ _ _ hs, splitOnChar, List.get?]

/-! ### Claim theorems -/

/-- C4: on any protected route, a request whose Authorization header yields
no token is answered 401 with an empty (no-JSON) body, and a request whose
extracted token fails verification is answered 403 with an empty body; in
both cases the handler never runs (the result is the same for every handler)
and the store is untouched. -/
theorem authenticate_token_rejects (secret : String) (now : Nat) (h : Option String)
    (handler : JwtPayload → DB → Response × DB) (db : DB) :
    (headerToken h = none →
      protect secret now h handler db = ({ status := 401, body := .empty }, db)) ∧
    (∀ tok, headerToken h = some tok → jwtVerifyStr secret now tok = .error () →
      protect secret now h handler db = ({ status := 403, body := .empty }, db)) := by
  constructor
  · intro hn
    simp [protect, authenticateToken, hn]
  · intro tok ht hv
    simp [protect, authenticateToken, ht, hv]

/-- Witness for C4 at concrete inputs: a missing header gives 401 and a
non-verifying token gives 403. -/
theorem authenticate_token_rejects_witness :
    protect "s3cr3t" 0 none (fun _ db => getProducts db) ⟨[], []⟩
      = ({ status := 401, body := .empty }, ⟨[], []⟩) ∧
    protect "s3cr3t" 0 (some "Bearer bad") (fun _ db => getProducts db) ⟨[], []⟩
      = ({ status := 403, body := .empty }, ⟨[], []⟩) :=
  ⟨(authenticate_token_rejects "s3cr3t" 0 none _ _).1 (by decide),
   (authenticate_token_rejects "s3cr3t" 0 (some "Bearer bad") _ _).2 "bad" (by decide) rfl⟩

/-- C1: a product-mutating request (POST, PUT, DELETE on /api/products)
whose header yields no token is answered 401, and one whose token fails
verification is answered 403; in every such case the store is returned
unchanged, the handler body never having run. -/
theorem mutating_routes_reject_unauthenticated (db : DB) (secret : String) (now : Nat)
    (genId id : String) (h : Option String) (name description : Option String) :
    (headerToken h = none →
      postProducts db secret now genId h name description = ({ status := 401, body := .empty }, db) ∧
      putProducts db secret now id h name description = ({ status := 401, body := .empty }, db) ∧
      deleteProducts db secret now id h = ({ status := 401, body := .empty }, db)) ∧
    (∀ tok, headerToken h = some tok → jwtVerifyStr secret now tok = .error () →
      postProducts db secret now genId h name description = ({ status := 403, body := .empty }, db) ∧
      putProducts db secret now id h name description = ({ status := 403, body := .empty }, db) ∧
      deleteProducts db secret now id h = ({ status := 403, body := .empty }, db)) := by
  constructor
  · intro hn
    refine ⟨?_, ?_, ?_⟩ <;> simp [postProducts, putProducts, deleteProducts, protect, authenticateToken, hn]
  · intro tok ht hv
    refine ⟨?_, ?_, ?_⟩ <;> simp [postProducts, putProducts, deleteProducts, protect, authenticateToken, ht, hv]

/-- Witness for C1 at concrete inputs: no header → 401 on all three routes;
a bad token → 403 on all three routes; the store with one product survives. -/
theorem mutating_routes_reject_unauthenticated_witness :
    (postProducts ⟨[], [⟨"p1", "Pen", "Blue"⟩]⟩ "s3cr3t" 0 "p2" none (some "N") (some "D")
        = ({ status := 401, body := .empty }, ⟨[], [⟨"p1", "Pen", "Blue"⟩]⟩) ∧
      putProducts ⟨[], [⟨"p1", "Pen", "Blue"⟩]⟩ "s3cr3t" 0 "p1" none (some "N") (some "D")
        = ({ status := 401, body := .empty }, ⟨[], [⟨"p1", "Pen", "Blue"⟩]⟩) ∧
      deleteProducts ⟨[], [⟨"p1", "Pen", "Blue"⟩]⟩ "s3cr3t" 0 "p1" none
        = ({ status := 401, body := .empty }, ⟨[], [⟨"p1", "Pen", "Blue"⟩]⟩)) ∧
    (postProducts ⟨[], [⟨"p1", "Pen", "Blue"⟩]⟩ "s3cr3t" 0 "p2" (some "Bearer zzz") (some "N") (some "D")
        = ({ status := 403, body := .empty }, ⟨[], [⟨"p1", "Pen", "Blue"⟩]⟩) ∧
      putProducts ⟨[], [⟨"p1", "Pen", "Blue"⟩]⟩ "s3cr3t" 0 "p1" (some "Bearer zzz") (some "N") (some "D")
        = ({ status := 403, body := .empty }, ⟨[], [⟨"p1", "Pen", "Blue"⟩]⟩) ∧
      deleteProducts ⟨[], [⟨"p1", "Pen", "Blue"⟩]⟩ "s3cr3t" 0 "p1" (some "Bearer zzz")
        = ({ status := 403, body := .empty }, ⟨[], [⟨"p1", "Pen", "Blue"⟩]⟩)) :=
  ⟨(mutating_routes_reject_unauthenticated ⟨[], [⟨"p1", "Pen", "Blue"⟩]⟩ "s3cr3t" 0 "p2" "p1" none (some "N") (some "D")).1 (by decide),
   (mutating_routes_reject_unauthenticated ⟨[], [⟨"p1", "Pen", "Blue"⟩]⟩ "s3cr3t" 0 "p2" "p1" (some "Bearer zzz") (some "N") (some "D")).2 "zzz" (by decide) rfl⟩

/-- C9: the middleware never inspects the scheme word: for any scheme, the
token taken is the second space-separated chunk, so `scheme ++ " " ++ tok`
is accepted whenever `tok` verifies; a header with no space, or whose second
chunk is empty, is treated as no token and rejected 401. -/
theorem auth_header_scheme_ignored (secret : String) (now : Nat) (scheme tok : String)
    (u : JwtPayload) (hs : ' ' ∉ scheme.data) (ht : ' ' ∉ tok.data) (hne : tok ≠ "")
    (hv : jwtVerifyStr secret now tok = .ok u) :
    authenticateToken secret now (some (scheme ++ " " ++ tok)) = .proceed u ∧
    (∀ h : String, ' ' ∉ h.data → authenticateToken secret now (some h) = .reject 401) ∧
    authenticateToken secret now (some (scheme ++ " ")) = .reject 401 := by
  refine ⟨?_, ?_, ?_⟩
  · simp [authenticateToken, headerToken_scheme_tok scheme tok hs ht hne, hv]
  · intro h hh
    simp [authenticateToken, headerToken_no_space h hh]
  · simp [authenticateToken, headerToken_empty_tok scheme hs]

/-- Witness for C9 at concrete inputs: scheme word "Basic" is accepted with
a verifying token; "abc" (no space) and "Basic " (empty second chunk) give
401. -/
theorem auth_header_scheme_ignored_witness :
    authenticateToken "s3cr3t" 150 (some ("Basic" ++ " " ++ tokenToString (jwtSign "id1" "alice" "s3cr3t" 100)))
      = .proceed { id := "id1", username := "alice", iat := 100, exp := 3700 } ∧
    authenticateToken "s3cr3t" 150 (some "abc") = .reject 401 ∧
    authenticateToken "s3cr3t" 150 (some ("Basic" ++ " ")) = .reject 401 := by
  have h := auth_header_scheme_ignored "s3cr3t" 150 "Basic"
    (tokenToString (jwtSign "id1" "alice" "s3cr3t" 100))
    { id := "id1", username := "alice", iat := 100, exp := 3700 }
    (by decide) (by decide) (by decide) rfl
  exact ⟨h.1, h.2.1 "abc" (by decide), h.2.2⟩

/-- C2: with non-empty credentials, an unknown username and a wrong password
produce literally the same response: 401 with body
`{error: "Invalid credentials"}`, so the two cases cannot be told apart. -/
theorem login_unknown_user_wrong_password_identical
    (db1 db2 : DB) (secret1 secret2 : String) (now1 now2 : Nat)
    (username password : Option String) (s : Seller)
    (hu : jsFalsy username = false) (hp : jsFalsy password = false)
    (h1 : db1.sellers.find? (fun t => t.username == username.getD "") = none)
    (h2 : db2.sellers.find? (fun t => t.username == username.getD "") = some s)
    (hc : bcryptCompare (password.getD "") s.password = false) :
    (loginHandler db1 secret1 now1 username password).1
      = { status := 401, body := .err "Invalid credentials" } ∧
    (loginHandler db2 secret2 now2 username password).1
      = { status := 401, body := .err "Invalid credentials" } ∧
    (loginHandler db1 secret1 now1 username password).1
      = (loginHandler db2 secret2 now2 username password).1 := by
  have e1 : (loginHandler db1 secret1 now1 username password).1
      = { status := 401, body := .err "Invalid credentials" } := by
    simp [loginHandler, hu, hp, h1]
  have e2 : (loginHandler db2 secret2 now2 username password).1
      = { status := 401, body := .err "Invalid credentials" } := by
    simp [loginHandler, hu, hp, h2, hc]
  exact ⟨e1, e2, e1.trans e2.symm⟩

/-- Witness for C2 at concrete inputs: a store without "alice" and a store
where "alice" has the hash of "pw" answer the same 401 body to
`{alice, nope}`. -/
theorem login_unknown_user_wrong_password_identical_witness :
    (loginHandler ⟨[⟨"id9", "bob", "h"⟩], []⟩ "s1" 10 (some "alice") (some "nope")).1
      = { status := 401, body := .err "Invalid credentials" } ∧
    (loginHandler ⟨[⟨"id1", "alice", bcryptHash 42 "pw"⟩], []⟩ "s2" 20 (some "alice") (some "nope")).1
      = { status := 401, body := .err "Invalid credentials" } ∧
    (loginHandler ⟨[⟨"id9", "bob", "h"⟩], []⟩ "s1" 10 (some "alice") (some "nope")).1
      = (loginHandler ⟨[⟨"id1", "alice", bcryptHash 42 "pw"⟩], []⟩ "s2" 20 (some "alice") (some "nope")).1 :=
  login_unknown_user_wrong_password_identical
    ⟨[⟨"id9", "bob", "h"⟩], []⟩ ⟨[⟨"id1", "alice", bcryptHash 42 "pw"⟩], []⟩
    "s1" "s2" 10 20 (some "alice") (some "nope") ⟨"id1", "alice", bcryptHash 42 "pw"⟩
    (by decide) (by decide) (by decide) (by decide) (by decide)

/-- C3: when the username is found and the password matches the stored hash,
login answers 200 with a token for exactly that seller: the payload holds the
seller's id and username, `iat` is the issue time, `exp` is 3600 seconds
later, and the token verifies against the server secret at any time before
expiry; the store is untouched. -/
theorem login_success_issues_token (db : DB) (secret : String) (now : Nat)
    (username password : Option String) (s : Seller)
    (hu : jsFalsy username = false) (hp : jsFalsy password = false)
    (hf : db.sellers.find? (fun t => t.username == username.getD "") = some s)
    (hc : bcryptCompare (password.getD "") s.password = true) :
    loginHandler db secret now username password
      = ({ status := 200, body := .token (jwtSign s._id s.username secret now) }, db) ∧
    (jwtSign s._id s.username secret now).payload.id = s._id ∧
    (jwtSign s._id s.username secret now).payload.username = s.username ∧
    (jwtSign s._id s.username secret now).payload.iat = now ∧
    (jwtSign s._id s.username secret now).payload.exp = now + 3600 ∧
    (∀ t : Nat, t < now + 3600 →
      jwtVerifyTok secret t (jwtSign s._id s.username secret now)
        = .ok (jwtSign s._id s.username secret now).payload) := by
  refine ⟨?_, rfl, rfl, rfl, rfl, ?_⟩
  · simp [loginHandler, hu, hp, hf, hc]
  · intro t htl
    have h1 : ¬((jwtSign s._id s.username secret now).sig
        ≠ signatureOf (jwtSign s._id s.username secret now).payload secret) := by
      simp [jwtSign]
    have h2 : ¬((jwtSign s._id s.username secret now).payload.exp ≤ t) := by
      simp [jwtSign]
      omega
    simp [jwtVerifyTok, h1, h2]

/-- Witness for C3 at concrete inputs: "alice" logging in with her correct
password gets 200 and the signed token, which verifies at time 150 before
its expiry. -/
theorem login_success_issues_token_witness :
    loginHandler ⟨[⟨"id1", "alice", bcryptHash 42 "pw"⟩], []⟩ "s3cr3t" 100 (some "alice") (some "pw")
      = ({ status := 200, body := .token (jwtSign "id1" "alice" "s3cr3t" 100) },
         ⟨[⟨"id1", "alice", bcryptHash 42 "pw"⟩], []⟩) ∧
    jwtVerifyTok "s3cr3t" 150 (jwtSign "id1" "alice" "s3cr3t" 100)
      = .ok (jwtSign "id1" "alice" "s3cr3t" 100).payload :=
  ⟨(login_success_issues_token ⟨[⟨"id1", "alice", bcryptHash 42 "pw"⟩], []⟩ "s3cr3t" 100
      (some "alice") (some "pw") ⟨"id1", "alice", bcryptHash 42 "pw"⟩
      (by decide) (by decide) (by decide) (by decide)).1,
   (login_success_issues_token ⟨[⟨"id1", "alice", bcryptHash 42 "pw"⟩], []⟩ "s3cr3t" 100
      (some "alice") (some "pw") ⟨"id1", "alice", bcryptHash 42 "pw"⟩
      (by decide) (by decide) (by decide) (by decide)).2.2.2.2.2 150 (by omega)⟩

/-- C5: a successful signup appends exactly one seller record whose password
field is the bcrypt (cost 10) hash of the submitted password — never the
plaintext (for any password not itself shaped like a bcrypt tag) — and the
system's only password-bearing operations reply with fixed literals or a
token: signup's body is always one of two error literals or the fixed
confirmation message, and login's body is an error literal or a token
carrying only id, username and timestamps. -/
theorem signup_stores_only_hash (db : DB) (salt : Nat) (genId : String)
    (username password : Option String)
    (hu : jsFalsy username = false) (hp : jsFalsy password = false)
    (hdup : db.sellers.any (fun s => s.username == username.getD "") = false)
    (hpw : (password.getD "").data.head? ≠ some '$') :
    signupHandler db salt genId username password
      = ({ status := 201, body := .msg "Seller registered successfully" },
         { db with sellers := db.sellers
             ++ [⟨genId, username.getD "", bcryptHash salt (password.getD "")⟩] }) ∧
    bcryptHash salt (password.getD "") ≠ password.getD "" ∧
    (∀ (db' : DB) (salt' : Nat) (gid : String) (un pw : Option String),
      ((signupHandler db' salt' gid un pw).1).body = .err "Username and password are required" ∨
      ((signupHandler db' salt' gid un pw).1).body = .err "Failed to register seller" ∨
      ((signupHandler db' salt' gid un pw).1).body = .msg "Seller registered successfully") ∧
    (∀ (db' : DB) (secret : String) (now : Nat) (un pw : Option String),
      ((loginHandler db' secret now un pw).1).body = .err "Username and password are required" ∨
      ((loginHandler db' secret now un pw).1).body = .err "Invalid credentials" ∨
      ∃ t : SignedToken, ((loginHandler db' secret now un pw).1).body = .token t) := by
  refine ⟨?_, ?_, ?_, ?_⟩
  · simp [signupHandler, hu, hp, hdup]
  · intro heq
    have hhead : (bcryptHash salt (password.getD "")).data.head? = some '$' := by
      simp [bcryptHash, String.data_append]
    rw [heq] at hhead
    exact hpw hhead
  · intro db' salt' gid un pw
    unfold signupHandler
    split
    · left; rfl
    · dsimp only
      split
      · right; left; rfl
      · right; right; rfl
  · intro db' secret now un pw
    unfold loginHandler
    split
    · left; rfl
    · split
      · right; left; rfl
      · split
        · right; right; exact ⟨_, rfl⟩
        · right; left; rfl

/-- Witness for C5 at concrete inputs: signing "alice"/"pw" up against an
empty store appends the hash record, and the hash differs from "pw". -/
theorem signup_stores_only_hash_witness :
    signupHandler ⟨[], []⟩ 42 "id1" (some "alice") (some "pw")
      = ({ status := 201, body := .msg "Seller registered successfully" },
         ⟨[⟨"id1", "alice", bcryptHash 42 "pw"⟩], []⟩) ∧
    bcryptHash 42 "pw" ≠ "pw" :=
  ⟨(signup_stores_only_hash ⟨[], []⟩ 42 "id1" (some "alice") (some "pw")
      (by decide) (by decide) (by decide) (by decide)).1,
   (signup_stores_only_hash ⟨[], []⟩ 42 "id1" (some "alice") (some "pw")
      (by decide) (by decide) (by decide) (by decide)).2.1⟩

/-- Mapping the in-place field update over the store leaves every `_id`, and
their order, unchanged. -/
theorem update_preserves_ids (l : List Product) (id n d : String) :
    (l.map (fun q => if q._id == id then { q with name := n, description := d } else q)).map (fun q => q._id)
      = l.map (fun q => q._id) := by
  induction l with
  | nil => rfl
  | cons x xs ih =>
    simp only [List.map_cons, ih]
    by_cases hx : x._id == id <;> simp [hx, ih]

/-- Membership after the in-place field update: a record with the target id
now carries the new name and description, every other record is an original. -/
theorem update_mem_characterization (l : List Product) (id n d : String) (q : Product)
    (hq : q ∈ l.map (fun r => if r._id == id then { r with name := n, description := d } else r)) :
    (q._id = id → q.name = n ∧ q.description = d) ∧ (q._id ≠ id → q ∈ l) := by
  rw [List.mem_map] at hq
  obtain ⟨r, hr, hrq⟩ := hq
  by_cases hid : r._id = id
  · have hq' : q = { r with name := n, description := d } := by
      rw [← hrq]
      simp [hid]
    subst hq'
    exact ⟨fun _ => ⟨rfl, rfl⟩, fun hne => absurd hid hne⟩
  · have hq' : q = r := by
      rw [← hrq]
      simp [hid]
    subst hq'
    exact ⟨fun hq2 => absurd hq2 hid, fun _ => hr⟩

/-- When `find?` locates the first record with the target id, `eraseP` on the
same predicate removes exactly that record. -/
theorem find?_eraseP_decomp (l : List Product) (id : String) (p : Product)
    (hf : l.find? (fun q => q._id == id) = some p) :
    ∃ l1 l2, (∀ r ∈ l1, r._id ≠ id) ∧ p._id = id ∧ l = l1 ++ p :: l2 ∧
      l.eraseP (fun q => q._id == id) = l1 ++ l2 := by
  induction l with
  | nil => simp at hf
  | cons x xs ih =>
    by_cases hx : (x._id == id) = true
    · have hpx : x = p := by
        simp [List.find?, hx] at hf
        exact hf
      subst hpx
      exact ⟨[], xs, by simp, by simpa using hx, rfl, by simp [List.eraseP_cons, hx]⟩
    · have hf' : xs.find? (fun q => q._id == id) = some p := by
        simpa [List.find?, hx] using hf
      obtain ⟨l1, l2, hl1, hpid, hdecomp, herase⟩ := ih hf'
      refine ⟨x :: l1, l2, ?_, hpid, by simp [hdecomp], ?_⟩
      · intro r hr
        rcases List.mem_cons.mp hr with rfl | hr'
        · simpa using hx
        · exact hl1 r hr'
      · simp [List.eraseP_cons, hx, herase]

/-- C6: an authenticated PUT with non-empty fields answers 404 and leaves
the store alone when no product has the id; otherwise it answers 200 with
the record carrying the new name and description, the stored ids (and their
order) are unchanged, the record with the target id now holds exactly the
supplied name and description, and every other record is untouched. -/
theorem update_product_behavior (db : DB) (secret : String) (now : Nat) (id : String)
    (h : Option String) (name description : Option String) (u : JwtPayload)
    (hauth : authenticateToken secret now h = .proceed u)
    (hn : jsFalsy name = false) (hd : jsFalsy description = false) :
    (db.products.find? (fun q => q._id == id) = none →
      putProducts db secret now id h name description
        = ({ status := 404, body := .err "Product not found" }, db)) ∧
    (∀ p, db.products.find? (fun q => q._id == id) = some p →
      (putProducts db secret now id h name description).1
        = { status := 200, body := .msgProduct "Product updated successfully"
              { p with name := name.getD "", description := description.getD "" } } ∧
      ((putProducts db secret now id h name description).2).products.map (fun q => q._id)
        = db.products.map (fun q => q._id) ∧
      (∀ q ∈ ((putProducts db secret now id h name description).2).products,
        (q._id = id → q.name = name.getD "" ∧ q.description = description.getD "") ∧
        (q._id ≠ id → q ∈ db.products))) := by
  have hroute : putProducts db secret now id h name description
      = updateProductHandler db id name description := by
    simp [putProducts, protect, hauth]
  constructor
  · intro hfind
    rw [hroute]
    simp [updateProductHandler, hn, hd, hfind]
  · intro p hfind
    have hres : updateProductHandler db id name description
        = ({ status := 200, body := .msgProduct "Product updated successfully"
               { p with name := name.getD "", description := description.getD "" } },
           { db with products := db.products.map (fun q => if q._id == id then { q with name := name.getD "", description := description.getD "" } else q) }) := by
      simp [updateProductHandler, hn, hd, hfind]
    rw [hroute, hres]
    exact ⟨rfl, update_preserves_ids _ _ _ _,
      fun q hq => update_mem_characterization _ _ _ _ q hq⟩

/-- Witness for C6 at concrete inputs: updating the one product in the store
through a verifying token rewrites both fields; updating an absent id gives
404. -/
theorem update_product_behavior_witness :
    putProducts ⟨[], [⟨"p1", "Pen", "Blue"⟩]⟩ "s3cr3t" 150 "p9"
        (some ("Bearer " ++ tokenToString (jwtSign "id1" "alice" "s3cr3t" 100)))
        (some "Pencil") (some "Red")
      = ({ status := 404, body := .err "Product not found" }, ⟨[], [⟨"p1", "Pen", "Blue"⟩]⟩) ∧
    (putProducts ⟨[], [⟨"p1", "Pen", "Blue"⟩]⟩ "s3cr3t" 150 "p1"
        (some ("Bearer " ++ tokenToString (jwtSign "id1" "alice" "s3cr3t" 100)))
        (some "Pencil") (some "Red")).1
      = { status := 200, body := .msgProduct "Product updated successfully" ⟨"p1", "Pencil", "Red"⟩ } :=
  ⟨(update_product_behavior ⟨[], [⟨"p1", "Pen", "Blue"⟩]⟩ "s3cr3t" 150 "p9"
      (some ("Bearer " ++ tokenToString (jwtSign "id1" "alice" "s3cr3t" 100)))
      (some "Pencil") (some "Red") { id := "id1", username := "alice", iat := 100, exp := 3700 }
      (by decide) (by decide) (by decide)).1 (by decide),
   ((update_product_behavior ⟨[], [⟨"p1", "Pen", "Blue"⟩]⟩ "s3cr3t" 150 "p1"
      (some ("Bearer " ++ tokenToString (jwtSign "id1" "alice" "s3cr3t" 100)))
      (some "Pencil") (some "Red") { id := "id1", username := "alice", iat := 100, exp := 3700 }
      (by decide) (by decide) (by decide)).2 ⟨"p1", "Pen", "Blue"⟩ (by decide)).1⟩

/-- C7: an authenticated DELETE answers 404 and leaves the store alone when
no product has the id; otherwise it answers 200 with only a confirmation
message (no record in the body), and the store loses exactly the first
record bearing that id, every other record surviving in order. -/
theorem delete_product_behavior (db : DB) (secret : String) (now : Nat) (id : String)
    (h : Option String) (u : JwtPayload)
    (hauth : authenticateToken secret now h = .proceed u) :
    (db.products.find? (fun q => q._id == id) = none →
      deleteProducts db secret now id h
        = ({ status := 404, body := .err "Product not found" }, db)) ∧
    (∀ p, db.products.find? (fun q => q._id == id) = some p →
      (deleteProducts db secret now id h).1
        = { status := 200, body := .msg "Product deleted successfully" } ∧
      ∃ l1 l2, (∀ r ∈ l1, r._id ≠ id) ∧ p._id = id ∧
        db.products = l1 ++ p :: l2 ∧
        ((deleteProducts db secret now id h).2).products = l1 ++ l2) := by
  have hroute : deleteProducts db secret now id h = deleteProductHandler db id := by
    simp [deleteProducts, protect, hauth]
  constructor
  · intro hfind
    rw [hroute]
    simp [deleteProductHandler, hfind]
  · intro p hfind
    have hres : deleteProductHandler db id
        = ({ status := 200, body := .msg "Product deleted successfully" },
           { db with products := db.products.eraseP (fun q => q._id == id) }) := by
      simp [deleteProductHandler, hfind]
    rw [hroute, hres]
    obtain ⟨l1, l2, hl1, hpid, hdecomp, herase⟩ := find?_eraseP_decomp db.products id p hfind
    exact ⟨rfl, l1, l2, hl1, hpid, hdecomp, herase⟩

/-- Witness for C7 at concrete inputs: deleting the one product through a
verifying token empties the store; deleting an absent id gives 404. -/
theorem delete_product_behavior_witness :
    deleteProducts ⟨[], [⟨"p1", "Pen", "Blue"⟩]⟩ "s3cr3t" 150 "p9"
        (some ("Bearer " ++ tokenToString (jwtSign "id1" "alice" "s3cr3t" 100)))
      = ({ status := 404, body := .err "Product not found" }, ⟨[], [⟨"p1", "Pen", "Blue"⟩]⟩) ∧
    (deleteProducts ⟨[], [⟨"p1", "Pen", "Blue"⟩]⟩ "s3cr3t" 150 "p1"
        (some ("Bearer " ++ tokenToString (jwtSign "id1" "alice" "s3cr3t" 100)))).1
      = { status := 200, body := .msg "Product deleted successfully" } :=
  ⟨(delete_product_behavior ⟨[], [⟨"p1", "Pen", "Blue"⟩]⟩ "s3cr3t" 150 "p9"
      (some ("Bearer " ++ tokenToString (jwtSign "id1" "alice" "s3cr3t" 100)))
      { id := "id1", username := "alice", iat := 100, exp := 3700 } (by decide)).1 (by decide),
   ((delete_product_behavior ⟨[], [⟨"p1", "Pen", "Blue"⟩]⟩ "s3cr3t" 150 "p1"
      (some ("Bearer " ++ tokenToString (jwtSign "id1" "alice" "s3cr3t" 100)))
      { id := "id1", username := "alice", iat := 100, exp := 3700 } (by decide)).2
      ⟨"p1", "Pen", "Blue"⟩ (by decide)).1⟩

/-- C8: a signup request missing username or password is answered 400 with
the fixed error body and creates no record; a successful signup answers 201
with only the fixed confirmation message — a body that carries neither the
created id nor a token. -/
theorem signup_missing_fields_and_success (db : DB) (salt : Nat) (genId : String)
    (username password : Option String) :
    (username = none ∨ password = none →
      signupHandler db salt genId username password
        = ({ status := 400, body := .err "Username and password are required" }, db)) ∧
    (jsFalsy username = false → jsFalsy password = false →
      db.sellers.any (fun s => s.username == username.getD "") = false →
      (signupHandler db salt genId username password).1
        = { status := 201, body := .msg "Seller registered successfully" }) := by
  constructor
  · rintro (rfl | rfl)
    · simp [signupHandler, jsFalsy]
    · simp [signupHandler, jsFalsy]
  · intro hu hp hdup
    simp [signupHandler, hu, hp, hdup]

/-- Witness for C8 at concrete inputs: a missing password gives 400 with no
record; signing "alice"/"pw" up gives 201 with the fixed message. -/
theorem signup_missing_fields_and_success_witness :
    signupHandler ⟨[], []⟩ 42 "id1" (some "alice") none
      = ({ status := 400, body := .err "Username and password are required" }, ⟨[], []⟩) ∧
    (signupHandler ⟨[], []⟩ 42 "id1" (some "alice") (some "pw")).1
      = { status := 201, body := .msg "Seller registered successfully" } :=
  ⟨(signup_missing_fields_and_success ⟨[], []⟩ 42 "id1" (some "alice") none).1 (Or.inr rfl),
   (signup_missing_fields_and_success ⟨[], []⟩ 42 "id1" (some "alice") (some "pw")).2
     (by decide) (by decide) (by decide)⟩

/-- C10: in signup, login, add-product and update-product, a required field
supplied as the empty string is rejected exactly as a missing field would
be — the presence checks test JavaScript truthiness — yielding 400 with the
validation error body and an unchanged store. -/
theorem empty_string_fields_rejected (db : DB) (salt : Nat) (genId : String)
    (secret : String) (now : Nat) (id : String) (v : Option String) :
    (signupHandler db salt genId (some "") v = signupHandler db salt genId none v ∧
     signupHandler db salt genId (some "") v
       = ({ status := 400, body := .err "Username and password are required" }, db)) ∧
    (signupHandler db salt genId v (some "") = signupHandler db salt genId v none ∧
     signupHandler db salt genId v (some "")
       = ({ status := 400, body := .err "Username and password are required" }, db)) ∧
    (loginHandler db secret now (some "") v = loginHandler db secret now none v ∧
     loginHandler db secret now (some "") v
       = ({ status := 400, body := .err "Username and password are required" }, db)) ∧
    (loginHandler db secret now v (some "") = loginHandler db secret now v none ∧
     loginHandler db secret now v (some "")
       = ({ status := 400, body := .err "Username and password are required" }, db)) ∧
    (addProductHandler db genId (some "") v = addProductHandler db genId none v ∧
     addProductHandler db genId (some "") v
       = ({ status := 400, body := .err "Product name and description are required" }, db)) ∧
    (addProductHandler db genId v (some "") = addProductHandler db genId v none ∧
     addProductHandler db genId v (some "")
       = ({ status := 400, body := .err "Product name and description are required" }, db)) ∧
    (updateProductHandler db id (some "") v = updateProductHandler db id none v ∧
     updateProductHandler db id (some "") v
       = ({ status := 400, body := .err "Product name and description are required" }, db)) ∧
    (updateProductHandler db id v (some "") = updateProductHandler db id v none ∧
     updateProductHandler db id v (some "")
       = ({ status := 400, body := .err "Product name and description are required" }, db)) := by
  refine ⟨⟨?_, ?_⟩, ⟨?_, ?_⟩, ⟨?_, ?_⟩, ⟨?_, ?_⟩, ⟨?_, ?_⟩, ⟨?_, ?_⟩, ⟨?_, ?_⟩, ⟨?_, ?_⟩⟩ <;>
    simp [signupHandler, loginHandler, addProductHandler, updateProductHandler, jsFalsy]
